import Mathlib

/-!
Verification development for the voice command pipeline of the
Voice-Assistant-Health-Dashboard repository.

The Python modules `src/voice/commands.py`, `src/voice/intent.py`,
`src/voice/listener.py` and `src/voice/tts.py` are shallowly embedded below:
pure functions become Lean functions, the module-level mutable state of the
custom-metric pattern cache becomes explicit state passing, the outbound HTTP
layer becomes a response oracle together with an explicit list of issued
requests, and Python exceptions on the modelled paths become `Except` /
explicit outcome values.  Python `float` arithmetic is modelled with exact
rationals (`ℚ`); no claim below depends on binary floating-point rounding.
-/

/-! ## Python value model

The parameter dictionaries flowing from the intent parser to the command
handlers hold Python ints, floats and strings.  A missing key is modelled by
`Option`.  `Value.truthy` is Python truthiness for these types (`0`, `0.0`
and `""` are falsy). -/

inductive Value where
  | int (z : ℤ)
  | float (q : ℚ)
  | str (s : String)
  deriving DecidableEq, Repr

def Value.truthy : Value → Bool
  | .int z => z ≠ 0
  | .float q => q ≠ 0
  | .str s => s ≠ ""

/-- Python `not params.get(k)`: true when the key is absent (`None`) or the
value is falsy. -/
def optFalsy : Option Value → Bool
  | none => true
  | some v => !v.truthy

/-- Parameter dictionary: association list, as produced by the extractors. -/
def Params := List (String × Value)

instance : DecidableEq Params := by unfold Params; infer_instance

def Params.get? (p : Params) (k : String) : Option Value :=
  (List.lookup k p)

def Params.getD (p : Params) (k : String) (d : Value) : Value :=
  (p.get? k).getD d

/-- Render a value the way a Python f-string renders it.  Python ints render
exactly; floats with a terminating decimal expansion render as their decimal
string (`2.0`, `8.5`), which covers every float the embedded code ever
renders; strings render as themselves. -/
def natDigits (n : ℕ) : String := toString n

def intRepr (z : ℤ) : String := toString z

/-- Decimal representation of a rational whose denominator divides `10^18`
(every float literal appearing in the source does); other values fall back to
a fraction string, a case no modelled execution reaches. -/
def decimalRepr (q : ℚ) : String :=
  let sign := if q < 0 then "-" else ""
  let q := |q|
  if q.den = 1 then sign ++ toString q.num ++ ".0"
  else
    let k := (List.range 19).find? (fun k => ((q * (10:ℚ)^k).den = 1))
    match k with
    | some k =>
        let scaled := (q * (10:ℚ)^k).num.toNat
        let intPart := scaled / 10^k
        let fracPart := scaled % 10^k
        let fracStr := toString fracPart
        let padded := String.mk (List.replicate (k - fracStr.length) '0') ++ fracStr
        sign ++ toString intPart ++ "." ++ padded
    | none => sign ++ toString q.num ++ "/" ++ toString q.den

def Value.pyStr : Value → String
  | .int z => intRepr z
  | .float q => decimalRepr q
  | .str s => s

/-- Python `f"{n:02d}"` for a natural number. -/
def pad2 (n : ℕ) : String :=
  if n < 10 then "0" ++ toString n else toString n

/-! ## HTTP model (`src/voice/commands.py` lines 21-34)

`_api_post` / `_api_get` issue one request each.  A handler execution is
modelled as a function of the parameter dictionary and an environment: the
environment fixes today's date string and a deterministic response oracle.
The handler returns its `CommandResult` together with the list of requests it
actually issued, in order; a validation failure before any call yields an
empty list. -/

inductive Method where
  | post
  | get
  deriving DecidableEq, Repr

structure Request where
  method : Method
  endpoint : String
  body : Params
  deriving DecidableEq

/-- One record of the `/api/custom-metrics` response.  Fields are optional:
Python `m[k]` raises `KeyError` when the key is missing, `m.get(k)` yields
`None`. -/
structure MetricRecord where
  id : Option ℤ
  name : Option String
  voice_keyword : Option String
  deriving DecidableEq, Repr

structure FoodRecord where
  id : ℤ
  name : String
  deriving DecidableEq, Repr

/-- The parts of a JSON response body the handlers read. -/
structure RespBody where
  warnings : List String := []
  message : Option String := none
  metrics : List MetricRecord := []
  foods : List FoodRecord := []
  calories : ℚ := 0
  deriving DecidableEq

/-- Outcome of one HTTP call: a decoded response with a status code, a
`requests.exceptions.ConnectionError`, or any other exception on the call
(timeout, JSON decode error, ...). -/
inductive HttpOutcome where
  | ok (status : ℕ) (body : RespBody)
  | connError
  | exn
  deriving DecidableEq

structure ApiEnv where
  today : String
  respond : Request → HttpOutcome

/-! ## Command results and handlers (`src/voice/commands.py`) -/

structure CommandResult where
  success : Bool
  message : String
  data : Option RespBody := none
  deriving DecidableEq

/-- `cmd_add_calories` (commands.py lines 37-70). -/
def cmd_add_calories (params : Params) (env : ApiEnv) : CommandResult × List Request :=
  let calories := params.get? "calories"
  let food := params.getD "food" (.str "Voice entry")
  if optFalsy calories then
    (⟨false, "I didn't catch the calorie amount.", none⟩, [])
  else
    let cal := calories.getD (.str "")
    let req : Request :=
      ⟨.post, "/api/calories",
        [("date", .str env.today), ("meal_name", food), ("calories", cal)]⟩
    (match env.respond req with
     | .ok 200 body =>
        let msg := "Added " ++ cal.pyStr ++ " calories"
        let msg := if food ≠ .str "Voice entry" then msg ++ " for " ++ food.pyStr else msg
        let msg := match body.warnings with
          | [] => msg
          | w :: _ => msg ++ ". Warning: " ++ w
        ⟨true, msg, some body⟩
     | .ok _ body =>
        ⟨false, "Failed to add calories: " ++ body.message.getD "Unknown error", none⟩
     | .connError => ⟨false, "Cannot connect to dashboard server.", none⟩
     | .exn => ⟨false, "An error occurred while adding calories.", none⟩,
     [req])

/-- `cmd_add_food` (commands.py lines 73-133).  Three sequential calls: food
search, calorie computation, calorie entry; the issued-request list records
how far execution got. -/
def cmd_add_food (params : Params) (env : ApiEnv) : CommandResult × List Request :=
  let food := params.get? "food"
  let quantity := params.get? "quantity"
  let unit := params.getD "unit" (.str "serving")
  if optFalsy food || optFalsy quantity then
    (⟨false, "I need both a food name and quantity.", none⟩, [])
  else
    let foodV := food.getD (.str "")
    let quantityV := quantity.getD (.str "")
    let searchReq : Request :=
      ⟨.get, "/api/foods/search?q=" ++ foodV.pyStr ++ "&limit=1", []⟩
    match env.respond searchReq with
    | .connError => (⟨false, "Cannot connect to dashboard server.", none⟩, [searchReq])
    | .exn => (⟨false, "An error occurred while adding food.", none⟩, [searchReq])
    | .ok status body =>
      if status ≠ 200 ∨ body.foods = [] then
        (⟨false, "I couldn't find " ++ foodV.pyStr ++ " in the database.", none⟩, [searchReq])
      else
        match body.foods with
        | [] => (⟨false, "I couldn't find " ++ foodV.pyStr ++ " in the database.", none⟩, [searchReq])
        | found :: _ =>
          let quantityStr := quantityV.pyStr ++ unit.pyStr
          let computeReq : Request :=
            ⟨.post, "/api/foods/compute",
              [("food_id", .int found.id), ("quantity", .str quantityStr)]⟩
          match env.respond computeReq with
          | .connError =>
              (⟨false, "Cannot connect to dashboard server.", none⟩, [searchReq, computeReq])
          | .exn =>
              (⟨false, "An error occurred while adding food.", none⟩, [searchReq, computeReq])
          | .ok cstatus cbody =>
            if cstatus ≠ 200 then
              (⟨false, "Couldn't compute calories: " ++ cbody.message.getD "Computation failed",
                none⟩, [searchReq, computeReq])
            else
              let calories := cbody.calories
              let addReq : Request :=
                ⟨.post, "/api/calories",
                  [("date", .str env.today), ("meal_name", .str found.name),
                   ("calories", .float calories), ("food_id", .int found.id),
                   ("quantity", .str quantityStr)]⟩
              match env.respond addReq with
              | .connError =>
                  (⟨false, "Cannot connect to dashboard server.", none⟩,
                   [searchReq, computeReq, addReq])
              | .exn =>
                  (⟨false, "An error occurred while adding food.", none⟩,
                   [searchReq, computeReq, addReq])
              | .ok astatus abody =>
                if astatus = 200 then
                  (⟨true,
                    "Added " ++ quantityV.pyStr ++ " " ++ unit.pyStr ++ " of " ++ found.name ++
                      ", " ++ intRepr ⌊calories⌋ ++ " calories.",
                    some abody⟩, [searchReq, computeReq, addReq])
                else
                  (⟨false, "Failed to add the food entry.", none⟩,
                   [searchReq, computeReq, addReq])

/-- Python `round(x, 1)`: round half to even at one decimal.  Embedded with
rational rounding; no verified statement depends on the tie-breaking rule. -/
def roundTo1 (q : ℚ) : ℚ := (round (q * 10) : ℤ) / 10

/-- `cmd_log_weight` (commands.py lines 136-165).  Note it reads the key
`weight_lbs`. -/
def cmd_log_weight (params : Params) (env : ApiEnv) : CommandResult × List Request :=
  let weight_lbs := params.get? "weight_lbs"
  if optFalsy weight_lbs then
    (⟨false, "I didn't catch your weight.", none⟩, [])
  else
    let w : ℚ := match weight_lbs with
      | some (.int z) => (z : ℚ)
      | some (.float q) => q
      | _ => 0
    let req : Request :=
      ⟨.post, "/api/weight",
        [("date", .str env.today), ("weight_lbs", .float (roundTo1 w))]⟩
    (match env.respond req with
     | .ok 200 body =>
        let msg := "Logged weight as " ++ decimalRepr (roundTo1 w) ++ " pounds"
        let msg := match body.warnings with
          | [] => msg
          | wrn :: _ => msg ++ ". Warning: " ++ wrn
        ⟨true, msg, some body⟩
     | .ok _ body =>
        ⟨false, "Failed to log weight: " ++ body.message.getD "Unknown error", none⟩
     | .connError => ⟨false, "Cannot connect to dashboard server.", none⟩
     | .exn => ⟨false, "An error occurred while logging weight.", none⟩,
     [req])

/-- `cmd_log_sleep` (commands.py lines 168-197). -/
def cmd_log_sleep (params : Params) (env : ApiEnv) : CommandResult × List Request :=
  let hours := params.get? "hours"
  if optFalsy hours then
    (⟨false, "I didn't catch how many hours you slept.", none⟩, [])
  else
    let h := hours.getD (.str "")
    let req : Request :=
      ⟨.post, "/api/sleep", [("date", .str env.today), ("hours", h)]⟩
    (match env.respond req with
     | .ok 200 body =>
        let msg := "Logged " ++ h.pyStr ++ " hours of sleep"
        let msg := match body.warnings with
          | [] => msg
          | w :: _ => msg ++ ". Warning: " ++ w
        ⟨true, msg, some body⟩
     | .ok _ body =>
        ⟨false, "Failed to log sleep: " ++ body.message.getD "Unknown error", none⟩
     | .connError => ⟨false, "Cannot connect to dashboard server.", none⟩
     | .exn => ⟨false, "An error occurred while logging sleep.", none⟩,
     [req])

/-- `cmd_log_wake` (commands.py lines 200-230).  The only handler without a
required-parameter check: absent `hour` / `minute` default to `7` / `0`. -/
def cmd_log_wake (params : Params) (env : ApiEnv) : CommandResult × List Request :=
  let hour : ℤ := match params.getD "hour" (.int 7) with
    | .int z => z
    | .float q => ⌊q⌋
    | .str _ => 0
  let minute : ℤ := match params.getD "minute" (.int 0) with
    | .int z => z
    | .float q => ⌊q⌋
    | .str _ => 0
  let hour := if hour = 12 ∧ !optFalsy (params.get? "am") then 0 else hour
  let wake_time := pad2 hour.toNat ++ ":" ++ pad2 minute.toNat ++ ":00"
  let req : Request :=
    ⟨.post, "/api/wake", [("date", .str env.today), ("wake_time", .str wake_time)]⟩
  (match env.respond req with
   | .ok 200 body =>
      ⟨true, "Logged wake time as " ++ intRepr hour ++ ":" ++ pad2 minute.toNat, some body⟩
   | .ok _ body =>
      ⟨false, "Failed to log wake time: " ++ body.message.getD "Unknown error", none⟩
   | .connError => ⟨false, "Cannot connect to dashboard server.", none⟩
   | .exn => ⟨false, "An error occurred while logging wake time.", none⟩,
   [req])

/-- Python `needle in haystack` substring test. -/
def containsSubstr (needle haystack : String) : Bool :=
  (haystack.splitOn needle).length > 1

/-- The metric-scan loop of `cmd_log_vegetables`: `m["name"]` raises
`KeyError` (modelled as `.error ()`) when a record lacks `name`; otherwise
the first record whose lowercased name contains "vegetable" is returned. -/
def findVegMetric : List MetricRecord → Except Unit (Option MetricRecord)
  | [] => .ok none
  | m :: ms =>
    match m.name with
    | none => .error ()
    | some n =>
      if containsSubstr "vegetable" n.toLower then .ok (some m) else findVegMetric ms

/-- `cmd_log_vegetables` (commands.py lines 233-275): required-parameter
check, then a custom-metrics lookup call, then the entry call.  A `KeyError`
from `m["name"]` / `veg_metric["id"]` lands in the generic `except` branch. -/
def cmd_log_vegetables (params : Params) (env : ApiEnv) : CommandResult × List Request :=
  let servings := params.get? "servings"
  if optFalsy servings then
    (⟨false, "I didn't catch the number of servings.", none⟩, [])
  else
    let s := servings.getD (.str "")
    let metricsReq : Request := ⟨.get, "/api/custom-metrics", []⟩
    match env.respond metricsReq with
    | .connError => (⟨false, "Cannot connect to dashboard server.", none⟩, [metricsReq])
    | .exn => (⟨false, "An error occurred while logging vegetables.", none⟩, [metricsReq])
    | .ok status body =>
      if status ≠ 200 then
        (⟨false, "Failed to get custom metrics.", none⟩, [metricsReq])
      else
        match findVegMetric body.metrics with
        | .error _ =>
            (⟨false, "An error occurred while logging vegetables.", none⟩, [metricsReq])
        | .ok none => (⟨false, "Vegetable tracking is not set up.", none⟩, [metricsReq])
        | .ok (some m) =>
          match m.id with
          | none =>
              (⟨false, "An error occurred while logging vegetables.", none⟩, [metricsReq])
          | some mid =>
            let addReq : Request :=
              ⟨.post, "/api/custom-metrics/" ++ intRepr mid ++ "/entries",
                [("date", .str env.today), ("value", s)]⟩
            match env.respond addReq with
            | .connError =>
                (⟨false, "Cannot connect to dashboard server.", none⟩, [metricsReq, addReq])
            | .exn =>
                (⟨false, "An error occurred while logging vegetables.", none⟩,
                 [metricsReq, addReq])
            | .ok astatus abody =>
              if astatus = 200 then
                (⟨true, "Logged " ++ s.pyStr ++ " servings of vegetables.", some abody⟩,
                 [metricsReq, addReq])
              else
                (⟨false, "Failed to log vegetables.", none⟩, [metricsReq, addReq])

/-- `cmd_log_workout` (commands.py lines 278-303). -/
def cmd_log_workout (params : Params) (env : ApiEnv) : CommandResult × List Request :=
  let duration := params.get? "duration_minutes"
  if optFalsy duration then
    (⟨false, "I didn't catch the workout duration.", none⟩, [])
  else
    let d := duration.getD (.str "")
    let req : Request :=
      ⟨.post, "/api/workout",
        [("date", .str env.today), ("duration_minutes", d), ("workout_type", .str "General")]⟩
    (match env.respond req with
     | .ok 200 body => ⟨true, "Logged a " ++ d.pyStr ++ " minute workout.", some body⟩
     | .ok _ body =>
        ⟨false, "Failed to log workout: " ++ body.message.getD "Unknown error", none⟩
     | .connError => ⟨false, "Cannot connect to dashboard server.", none⟩
     | .exn => ⟨false, "An error occurred while logging workout.", none⟩,
     [req])

/-- `cmd_log_custom_metric` (commands.py lines 306-331).  Python guard:
`if not metric_id or value is None`. -/
def cmd_log_custom_metric (params : Params) (env : ApiEnv) : CommandResult × List Request :=
  let metric_id := params.get? "metric_id"
  let metric_name := params.getD "metric_name" (.str "metric")
  let value := params.get? "value"
  if optFalsy metric_id || value = none then
    (⟨false, "Missing metric or value.", none⟩, [])
  else
    let mid := metric_id.getD (.str "")
    let v := value.getD (.str "")
    let req : Request :=
      ⟨.post, "/api/custom-metrics/" ++ mid.pyStr ++ "/entries",
        [("date", .str env.today), ("value", v)]⟩
    (match env.respond req with
     | .ok 200 body => ⟨true, "Logged " ++ v.pyStr ++ " for " ++ metric_name.pyStr ++ ".", some body⟩
     | .ok _ _ => ⟨false, "Failed to log " ++ metric_name.pyStr ++ ".", none⟩
     | .connError => ⟨false, "Cannot connect to dashboard server.", none⟩
     | .exn =>
        ⟨false, "An error occurred while logging " ++ metric_name.pyStr ++ ".", none⟩,
     [req])

/-- `COMMAND_HANDLERS` (commands.py lines 335-344). -/
def COMMAND_HANDLERS : List (String × (Params → ApiEnv → CommandResult × List Request)) :=
  [("add_calories", cmd_add_calories),
   ("add_food", cmd_add_food),
   ("log_weight", cmd_log_weight),
   ("log_sleep", cmd_log_sleep),
   ("log_wake", cmd_log_wake),
   ("log_vegetables", cmd_log_vegetables),
   ("log_workout", cmd_log_workout),
   ("log_custom_metric", cmd_log_custom_metric)]

/-- `ParsedIntent` (intent.py lines 89-95). -/
structure ParsedIntent where
  intent : String
  params : Params
  raw_text : String
  confidence : ℚ := 1
  deriving DecidableEq

/-- `execute_command` (commands.py lines 347-357). -/
def execute_command (pi : ParsedIntent) (env : ApiEnv) : CommandResult × List Request :=
  match List.lookup pi.intent COMMAND_HANDLERS with
  | none => (⟨false, "I don't know how to handle that command.", none⟩, [])
  | some h => h pi.params env

/-! ## Claim C1 / C10 support -/

/-- A fixed test environment: any request gets a connection error.  Used only
by witness theorems. -/
def env0 : ApiEnv := ⟨"2026-01-01", fun _ => .connError⟩

/-- Required-parameter table read off the handler sources: handler, required
keys, and the validation-failure message it returns. -/
def requiredParamSpecs :
    List ((Params → ApiEnv → CommandResult × List Request) × List String × String) :=
  [(cmd_add_calories, (["calories"], "I didn't catch the calorie amount.")),
   (cmd_add_food, (["food", "quantity"], "I need both a food name and quantity.")),
   (cmd_log_weight, (["weight_lbs"], "I didn't catch your weight.")),
   (cmd_log_sleep, (["hours"], "I didn't catch how many hours you slept.")),
   (cmd_log_vegetables, (["servings"], "I didn't catch the number of servings.")),
   (cmd_log_workout, (["duration_minutes"], "I didn't catch the workout duration.")),
   (cmd_log_custom_metric, (["metric_id", "value"], "Missing metric or value."))]

/-- C1: every handler with required parameters, when one of them is absent
from the parameter map, returns `success = false` with its field-specific
message and issues zero outbound HTTP requests. -/
theorem missing_required_param_no_request
    (spec : (Params → ApiEnv → CommandResult × List Request) × List String × String)
    (hspec : spec ∈ requiredParamSpecs)
    (k : String) (hk : k ∈ spec.2.1)
    (params : Params) (env : ApiEnv)
    (habs : params.get? k = none) :
    spec.1 params env = (⟨false, spec.2.2, none⟩, []) := by
  fin_cases hspec <;> simp only [List.mem_cons, List.mem_singleton, List.not_mem_nil,
    or_false] at hk
  case «0» =>
    subst hk
    simp [cmd_add_calories, habs, optFalsy]
  case «1» =>
    rcases hk with hk | hk <;> subst hk <;>
      simp [cmd_add_food, habs, optFalsy]
  case «2» =>
    subst hk
    simp [cmd_log_weight, habs, optFalsy]
  case «3» =>
    subst hk
    simp [cmd_log_sleep, habs, optFalsy]
  case «4» =>
    subst hk
    simp [cmd_log_vegetables, habs, optFalsy]
  case «5» =>
    subst hk
    simp [cmd_log_workout, habs, optFalsy]
  case «6» =>
    rcases hk with hk | hk <;> subst hk <;>
      simp [cmd_log_custom_metric, habs, optFalsy]

/-- Witness for C1: `add_calories` with an empty parameter map fails with the
calorie message and issues no request. -/
theorem missing_required_param_no_request_witness :
    cmd_add_calories [] env0 =
      (⟨false, "I didn't catch the calorie amount.", none⟩, []) :=
  missing_required_param_no_request _ (List.Mem.head _) "calories"
    (List.Mem.head _) [] env0 rfl

/-- C10: `log_wake` with a parameter map lacking both `hour` and `minute`
does not fail validation: it defaults to 7:00 and issues one POST whose body
carries `wake_time = "07:00:00"`; and among all entries of
`COMMAND_HANDLERS`, `log_wake` is the only one that issues a request on an
empty parameter map (every other handler checks a required parameter first
and issues none). -/
theorem log_wake_defaults_and_unique (env : ApiEnv) :
    (cmd_log_wake [] env).2 =
      [⟨.post, "/api/wake", [("date", .str env.today), ("wake_time", .str "07:00:00")]⟩] ∧
    ∀ p ∈ COMMAND_HANDLERS, ((p.2 [] env).2 = [] ↔ p.1 ≠ "log_wake") := by
  constructor
  · rfl
  · intro p hp
    fin_cases hp <;>
      simp [cmd_add_calories, cmd_add_food, cmd_log_weight, cmd_log_sleep, cmd_log_wake,
        cmd_log_vegetables, cmd_log_workout, cmd_log_custom_metric,
        Params.get?, Params.getD, optFalsy, List.lookup]

/-- Witness for C10 at the concrete environment `env0`, with `add_calories`
as the concrete other handler. -/
theorem log_wake_defaults_and_unique_witness :
    (cmd_log_wake [] env0).2 =
      [⟨.post, "/api/wake", [("date", .str "2026-01-01"), ("wake_time", .str "07:00:00")]⟩] ∧
    ((cmd_add_calories [] env0).2 = [] ↔ "add_calories" ≠ "log_wake") :=
  ⟨(log_wake_defaults_and_unique env0).1,
   (log_wake_defaults_and_unique env0).2 ("add_calories", cmd_add_calories) (List.Mem.head _)⟩

/-! ## Word-number conversion (`src/voice/intent.py` lines 99-170) -/

/-- `WORD_NUMBERS` (intent.py lines 99-109). -/
def WORD_NUMBERS : List (String × ℚ) :=
  [("zero", 0), ("one", 1), ("two", 2), ("three", 3), ("four", 4),
   ("five", 5), ("six", 6), ("seven", 7), ("eight", 8), ("nine", 9),
   ("ten", 10), ("eleven", 11), ("twelve", 12), ("thirteen", 13),
   ("fourteen", 14), ("fifteen", 15), ("sixteen", 16), ("seventeen", 17),
   ("eighteen", 18), ("nineteen", 19), ("twenty", 20), ("thirty", 30),
   ("forty", 40), ("fifty", 50), ("sixty", 60), ("seventy", 70),
   ("eighty", 80), ("ninety", 90), ("hundred", 100), ("thousand", 1000),
   ("half", 1/2), ("quarter", 1/4)]

def digitsVal (cs : List Char) : ℕ :=
  cs.foldl (fun a c => a * 10 + (c.toNat - 48)) 0

/-- Split a character list at every `'.'` (the groups between dots). -/
def splitOnDot : List Char → List (List Char)
  | [] => [[]]
  | c :: cs =>
      if c = '.' then [] :: splitOnDot cs
      else
        match splitOnDot cs with
        | [] => [[c]]
        | g :: gs => (c :: g) :: gs

/-- Python `float(s)` on the literals this code can meet: an optional sign
followed by digits with an optional fractional part (`"8"`, `"7.5"`,
`".5"`, `"5."`).  Exotic accepted spellings (exponents, `inf`, `nan`,
underscores) are not modelled; no embedded call site produces them. -/
def pyFloat? (s : String) : Option ℚ :=
  let cs := s.data
  let signed : ℚ × List Char :=
    match cs with
    | '-' :: t => (-1, t)
    | '+' :: t => (1, t)
    | _ => (1, cs)
  let sign := signed.1
  let body := signed.2
  match splitOnDot body with
  | [ip] =>
      if ip ≠ [] ∧ ip.all Char.isDigit then some (sign * digitsVal ip) else none
  | [ip, fp] =>
      if (ip ≠ [] ∨ fp ≠ []) ∧ ip.all Char.isDigit ∧ fp.all Char.isDigit then
        some (sign * (digitsVal ip + (digitsVal fp : ℚ) / 10 ^ fp.length))
      else none
  | _ => none

/-- Loop state of `words_to_number`: the flushed running total and the
accumulating current value (intent.py lines 146-147). -/
structure WtnState where
  total : ℚ
  current : ℚ
  deriving DecidableEq

/-- One iteration of the `for word in words` loop (intent.py lines 149-167):
`hundred` multiplies the accumulated value (or stands for 100), `thousand`
multiplies and flushes into the total, `and` is skipped, any other known word
adds its value, and an unknown word is tried as a numeric literal and
otherwise ignored. -/
def wtnStep (st : WtnState) (word : String) : WtnState :=
  match List.lookup word WORD_NUMBERS with
  | some val =>
    if val = 100 then
      { st with current := if st.current ≠ 0 then st.current * 100 else 100 }
    else if val = 1000 then
      ⟨st.total + (if st.current ≠ 0 then st.current * 1000 else 1000), 0⟩
    else
      { st with current := st.current + val }
  | none =>
    if word = "and" then st
    else
      match pyFloat? word with
      | some x => { st with current := st.current + x }
      | none => st

/-- `words_to_number` (intent.py lines 126-170) applied to the split word
list (`words = text.split()`, line 145): fold the loop, add the leftover
`current` into `total`, and return it only when positive. -/
def words_to_number_core (words : List String) : Option ℚ :=
  let st := words.foldl wtnStep ⟨0, 0⟩
  let r := st.total + st.current
  if 0 < r then some r else none

/-- Drop leading and trailing whitespace (Python `str.strip()`). -/
def stripChars (cs : List Char) : List Char :=
  ((cs.dropWhile Char.isWhitespace).reverse.dropWhile Char.isWhitespace).reverse

/-- Split on whitespace runs, dropping empty pieces (Python `str.split()`). -/
def splitWsGo : List Char → List Char → List String
  | [], acc => if acc = [] then [] else [String.mk acc.reverse]
  | c :: cs, acc =>
      if c.isWhitespace then
        if acc = [] then splitWsGo cs [] else String.mk acc.reverse :: splitWsGo cs []
      else splitWsGo cs (c :: acc)

def splitWs (cs : List Char) : List String := splitWsGo cs []

/-- `words_to_number` on the raw text: strip and lowercase (line 136), take
the numeric fast path `float(text)` when it parses (lines 139-141), else
split on whitespace (line 145) and run the word loop. -/
def words_to_number (text : String) : Option ℚ :=
  let t := (stripChars text.data).map Char.toLower
  match pyFloat? (String.mk t) with
  | some q => some q
  | none => words_to_number_core (splitWs t)

/-! ## The grammar of standard English cardinal phrases (claim C2)

The claim quantifies over "cardinal number-word phrases under standard
English numeral composition".  The grammar below — modelled from the claim's
words, not from the code — generates exactly those: a small number (a unit,
teen or tens word, or tens followed by a unit), optionally scaled by
`hundred` with an optional (`and`-joined) small remainder, optionally scaled
by `thousand` with an optional (`and`-joined) sub-thousand remainder. -/

def unitEntries : List (String × ℚ) :=
  [("one", 1), ("two", 2), ("three", 3), ("four", 4), ("five", 5),
   ("six", 6), ("seven", 7), ("eight", 8), ("nine", 9)]

def teenEntries : List (String × ℚ) :=
  [("ten", 10), ("eleven", 11), ("twelve", 12), ("thirteen", 13),
   ("fourteen", 14), ("fifteen", 15), ("sixteen", 16), ("seventeen", 17),
   ("eighteen", 18), ("nineteen", 19)]

def tensEntries : List (String × ℚ) :=
  [("twenty", 20), ("thirty", 30), ("forty", 40), ("fifty", 50),
   ("sixty", 60), ("seventy", 70), ("eighty", 80), ("ninety", 90)]

/-- A number 1-99 as spoken: a single unit/teen/tens word, or a tens word
followed by a unit word ("eighty five"). -/
inductive SmallNum where
  | single (e : {p : String × ℚ // p ∈ unitEntries ∨ p ∈ teenEntries ∨ p ∈ tensEntries})
  | tensUnit (t : {p : String × ℚ // p ∈ tensEntries}) (u : {p : String × ℚ // p ∈ unitEntries})

def SmallNum.words : SmallNum → List String
  | .single e => [e.1.1]
  | .tensUnit t u => [t.1.1, u.1.1]

def SmallNum.val : SmallNum → ℚ
  | .single e => e.1.2
  | .tensUnit t u => t.1.2 + u.1.2

/-- A number 1-9999 as spoken without a `thousand` scale: either a small
number or `<small> hundred [[and] <small>]`. -/
inductive Hundreds where
  | plain (s : SmallNum)
  | hund (s : SmallNum) (rest : Option (Bool × SmallNum))

def Hundreds.words : Hundreds → List String
  | .plain s => s.words
  | .hund s rest =>
      s.words ++ ["hundred"] ++
        (match rest with
         | none => []
         | some (a, s2) => (if a then ["and"] else []) ++ s2.words)

def Hundreds.val : Hundreds → ℚ
  | .plain s => s.val
  | .hund s rest =>
      s.val * 100 + (match rest with | none => 0 | some (_, s2) => s2.val)

/-- A full cardinal phrase: a sub-thousand part, or
`<sub-thousand> thousand [[and] <sub-thousand>]`. -/
inductive NumPhrase where
  | simple (h : Hundreds)
  | thousands (h : Hundreds) (rest : Option (Bool × Hundreds))

def NumPhrase.words : NumPhrase → List String
  | .simple h => h.words
  | .thousands h rest =>
      h.words ++ ["thousand"] ++
        (match rest with
         | none => []
         | some (a, h2) => (if a then ["and"] else []) ++ h2.words)

def NumPhrase.val : NumPhrase → ℚ
  | .simple h => h.val
  | .thousands h rest =>
      h.val * 1000 + (match rest with | none => 0 | some (_, h2) => h2.val)

/-! ## C2 proof machinery -/

/-- Every grammar word below the `hundred` scale is found in `WORD_NUMBERS`
with its standard value, which is positive and is neither of the two
multiplier values. -/
theorem smallEntry_facts :
    ∀ p ∈ unitEntries ++ teenEntries ++ tensEntries,
      List.lookup p.1 WORD_NUMBERS = some p.2 ∧ 0 < p.2 ∧ p.2 ≠ 100 ∧ p.2 ≠ 1000 := by
  decide

theorem wtnStep_entry (st : WtnState) (w : String) (v : ℚ)
    (hlk : List.lookup w WORD_NUMBERS = some v) (h100 : v ≠ 100) (h1000 : v ≠ 1000) :
    wtnStep st w = ⟨st.total, st.current + v⟩ := by
  simp [wtnStep, hlk, h100, h1000]

theorem wtnStep_hundred (st : WtnState) :
    wtnStep st "hundred" =
      ⟨st.total, if st.current ≠ 0 then st.current * 100 else 100⟩ := rfl

theorem wtnStep_thousand (st : WtnState) :
    wtnStep st "thousand" =
      ⟨st.total + (if st.current ≠ 0 then st.current * 1000 else 1000), 0⟩ := rfl

theorem wtnStep_and (st : WtnState) : wtnStep st "and" = st := rfl

theorem smallNum_val_pos (s : SmallNum) : 0 < s.val := by
  cases s with
  | single e =>
      have h := smallEntry_facts e.1 (by
        rcases e.2 with h | h | h <;> simp [List.mem_append, h])
      exact h.2.1
  | tensUnit t u =>
      have ht := smallEntry_facts t.1 (by simp [List.mem_append, t.2])
      have hu := smallEntry_facts u.1 (by simp [List.mem_append, u.2])
      simp only [SmallNum.val]
      exact add_pos ht.2.1 hu.2.1

theorem fold_smallNum (st : WtnState) (s : SmallNum) :
    s.words.foldl wtnStep st = ⟨st.total, st.current + s.val⟩ := by
  cases s with
  | single e =>
      have h := smallEntry_facts e.1 (by
        rcases e.2 with h | h | h <;> simp [List.mem_append, h])
      simp [SmallNum.words, SmallNum.val, wtnStep_entry st e.1.1 e.1.2 h.1 h.2.2.1 h.2.2.2]
  | tensUnit t u =>
      have ht := smallEntry_facts t.1 (by simp [List.mem_append, t.2])
      have hu := smallEntry_facts u.1 (by simp [List.mem_append, u.2])
      simp only [SmallNum.words, SmallNum.val, List.foldl_cons, List.foldl_nil,
        wtnStep_entry _ _ _ ht.1 ht.2.2.1 ht.2.2.2,
        wtnStep_entry _ _ _ hu.1 hu.2.2.1 hu.2.2.2]
      exact congrArg _ (by ring)

theorem hundreds_val_pos (h : Hundreds) : 0 < h.val := by
  cases h with
  | plain s => exact smallNum_val_pos s
  | hund s rest =>
      rcases rest with _ | ⟨a, s2⟩ <;> simp only [Hundreds.val]
      · have := smallNum_val_pos s; nlinarith
      · have := smallNum_val_pos s; have := smallNum_val_pos s2; nlinarith

theorem fold_hundreds (t : ℚ) (h : Hundreds) :
    h.words.foldl wtnStep ⟨t, 0⟩ = ⟨t, h.val⟩ := by
  cases h with
  | plain s => simp [Hundreds.words, Hundreds.val, fold_smallNum]
  | hund s rest =>
      have hsv := smallNum_val_pos s
      rcases rest with _ | ⟨a, s2⟩
      · simp [Hundreds.words, Hundreds.val, List.foldl_append, fold_smallNum,
          wtnStep_hundred, hsv.ne']
      · cases a <;>
          simp [Hundreds.words, Hundreds.val, List.foldl_append, fold_smallNum,
            wtnStep_hundred, wtnStep_and, hsv.ne']

theorem numPhrase_val_pos (p : NumPhrase) : 0 < p.val := by
  cases p with
  | simple h => exact hundreds_val_pos h
  | thousands h rest =>
      rcases rest with _ | ⟨a, h2⟩ <;> simp only [NumPhrase.val]
      · have := hundreds_val_pos h; nlinarith
      · have := hundreds_val_pos h; have := hundreds_val_pos h2; nlinarith

/-- The word loop of `words_to_number` computes the standard value (total,
current) of any phrase of the cardinal grammar. -/
theorem fold_numPhrase (p : NumPhrase) :
    p.words.foldl wtnStep ⟨0, 0⟩ =
      (match p with
       | .simple h => (⟨0, h.val⟩ : WtnState)
       | .thousands h none => ⟨h.val * 1000, 0⟩
       | .thousands h (some (_, h2)) => ⟨h.val * 1000, h2.val⟩) := by
  cases p with
  | simple h => simpa using fold_hundreds 0 h
  | thousands h rest =>
      have hhv := hundreds_val_pos h
      rcases rest with _ | ⟨a, h2⟩
      · simp [NumPhrase.words, List.foldl_append, fold_hundreds, wtnStep_thousand, hhv.ne']
      · cases a <;>
          simp [NumPhrase.words, List.foldl_append, fold_hundreds, wtnStep_thousand,
            wtnStep_and, hhv.ne']

theorem wtn_core_phrase (p : NumPhrase) :
    words_to_number_core p.words = some p.val := by
  have hfold := fold_numPhrase p
  have hpos := numPhrase_val_pos p
  cases p with
  | simple h =>
      simp only [words_to_number_core, hfold, NumPhrase.val] at *
      rw [if_pos (by linarith)]
      norm_num
  | thousands h rest =>
      rcases rest with _ | ⟨a, h2⟩ <;>
      · simp only [words_to_number_core, hfold, NumPhrase.val] at *
        rw [if_pos (by linarith)]

unseal Rat.add Rat.mul Rat.sub Rat.inv in
/-- C2 counterexample: the claim ranges over phrases built from the words
"zero" through "ninety" plus the scale words; the one-word phrase "zero" is
such a phrase and its arithmetically correct value is 0, but
`words_to_number` returns `None` for it (the loop total stays 0 and
`total if total > 0 else None` yields `None`). -/
theorem words_to_number_zero_counterexample :
    words_to_number "zero" = none := by decide

unseal Rat.add Rat.mul Rat.sub Rat.inv in
/-- C2 amended: for every cardinal number-word phrase of the standard
English composition grammar — all of which have positive value; the
value-zero phrase "zero" is the sole exception the counterexample exhibits —
`words_to_number` returns the arithmetically correct value; in particular
"two thousand five hundred" returns 2500 and "eighty five" returns 85. -/
theorem words_to_number_correct :
    (∀ p : NumPhrase, words_to_number_core p.words = some p.val) ∧
    words_to_number "two thousand five hundred" = some 2500 ∧
    words_to_number "eighty five" = some 85 :=
  ⟨wtn_core_phrase, by decide, by decide⟩

/-! ## A small regex engine

The deterministic grammar rules of `intent.py` are Python `re` patterns.  The
backtracking engine below implements the fragment those patterns use:
character classes, concatenation, ordered alternation, greedy/lazy star and
option, capturing groups, word boundaries and the end anchor, with Python's
leftmost search and preference order.  Every pattern of the source is
hand-translated into this AST next to its original text. -/

inductive Re where
  | eps
  | cls (p : Char → Bool)
  | seq (a b : Re)
  | alt (a b : Re)
  | star (greedy : Bool) (a : Re)
  | opt (greedy : Bool) (a : Re)
  | group (idx : ℕ) (a : Re)
  | bound
  | eos

/-- Captures: (group index, start, stop), most recent first. -/
def Caps := List (ℕ × ℕ × ℕ)

def isWordChar (c : Char) : Bool := c.isAlphanum || c = '_'

def isWordBoundary (s : List Char) (i : ℕ) : Bool :=
  let before := if 0 < i then isWordChar (s.getD (i - 1) ' ') else false
  let after := if i < s.length then isWordChar (s.getD i ' ') else false
  before != after

/-- Iterate a star body (`step`) with backtracking.  `fuel` bounds the
iteration count (each iteration must consume input; a zero-width body
iteration is cut off, as in Python). -/
def starIter (step : ℕ → Caps → (ℕ → Caps → Option α) → Option α) (greedy : Bool) :
    ℕ → ℕ → Caps → (ℕ → Caps → Option α) → Option α
  | 0, i, caps, k => k i caps
  | fuel + 1, i, caps, k =>
      if greedy then
        match step i caps (fun j c => if j = i then none else starIter step greedy fuel j c k) with
        | some r => some r
        | none => k i caps
      else
        match k i caps with
        | some r => some r
        | none => step i caps (fun j c => if j = i then none else starIter step greedy fuel j c k)

/-- CPS backtracking matcher: try to match `re` at position `i` of `s`,
calling the continuation with the end position and captures; `none` from the
continuation triggers backtracking into earlier choice points. -/
def matchRe (s : List Char) : Re → ℕ → Caps → (ℕ → Caps → Option α) → Option α
  | .eps, i, caps, k => k i caps
  | .cls p, i, caps, k =>
      if i < s.length ∧ p (s.getD i ' ') then k (i + 1) caps else none
  | .seq a b, i, caps, k => matchRe s a i caps (fun j c => matchRe s b j c k)
  | .alt a b, i, caps, k =>
      match matchRe s a i caps k with
      | some r => some r
      | none => matchRe s b i caps k
  | .opt greedy a, i, caps, k =>
      if greedy then
        match matchRe s a i caps k with
        | some r => some r
        | none => k i caps
      else
        match k i caps with
        | some r => some r
        | none => matchRe s a i caps k
  | .group n a, i, caps, k => matchRe s a i caps (fun j c => k j ((n, i, j) :: c))
  | .bound, i, caps, k => if isWordBoundary s i then k i caps else none
  | .eos, i, caps, k => if i = s.length then k i caps else none
  | .star greedy a, i, caps, k =>
      starIter (fun j c k2 => matchRe s a j c k2) greedy (s.length + 1 - i) i caps k

/-- Match `re` at exactly position `i`; on success return the end position
and captures of the preferred match. -/
def matchAt (s : List Char) (re : Re) (i : ℕ) : Option (ℕ × Caps) :=
  matchRe s re i [] (fun j c => some (j, c))

def searchFromAux (s : List Char) (re : Re) : ℕ → ℕ → Option (ℕ × ℕ × Caps)
  | _, 0 => none
  | i, fuel + 1 =>
      match matchAt s re i with
      | some (j, caps) => some (i, j, caps)
      | none => searchFromAux s re (i + 1) fuel

/-- Python `re.search`: leftmost start position wins; at a given start the
backtracking preference order decides. -/
def search (s : List Char) (re : Re) : Option (ℕ × ℕ × Caps) :=
  searchFromAux s re 0 (s.length + 1)

/-- One regex match: subject, span, captures. -/
structure MatchData where
  s : List Char
  start : ℕ
  stop : ℕ
  caps : Caps

/-- `m.group(n)`: the most recent capture of group `n`, `None` when the
group did not participate; group 0 is the whole match. -/
def MatchData.group (m : MatchData) (n : ℕ) : Option String :=
  if n = 0 then some (String.mk ((m.s.drop m.start).take (m.stop - m.start)))
  else
    (m.caps.find? (fun t => t.1 = n)).map
      (fun t => String.mk ((m.s.drop t.2.1).take (t.2.2 - t.2.1)))

/-- Python `re.sub` with a replacement function: non-overlapping matches left
to right, scanning resumes at each match end (advancing one character after
a zero-width match). -/
def rsubGo (s : List Char) (re : Re) (repl : MatchData → List Char) : ℕ → ℕ → List Char
  | pos, 0 => s.drop pos
  | pos, fuel + 1 =>
      match searchFromAux s re pos (s.length + 1 - pos) with
      | none => s.drop pos
      | some (a, b, caps) =>
          (s.drop pos).take (a - pos) ++ repl ⟨s, a, b, caps⟩ ++
            (if a < b then rsubGo s re repl b fuel
             else
               match s.drop b with
               | [] => []
               | c :: _ => c :: rsubGo s re repl (b + 1) fuel)

def rsub (s : List Char) (re : Re) (repl : MatchData → List Char) : List Char :=
  rsubGo s re repl 0 (s.length + 1)

/-! Pattern-building helpers. -/

def rchar (c : Char) : Re := .cls (fun x => x = c)

def rstr (str : String) : Re := str.data.foldr (fun c r => .seq (rchar c) r) .eps

/-- Ordered alternation of a list (left to right, as Python tries them). -/
def raltL : List Re → Re
  | [] => .eps
  | [r] => r
  | r :: rest => .alt r (raltL rest)

def rdigit : Re := .cls Char.isDigit
def rws : Re := .cls Char.isWhitespace
def rword : Re := .cls isWordChar
def rdot : Re := .cls (fun c => c ≠ '\n')

/-- `x+` (greedy when the flag is true). -/
def rplus (greedy : Bool) (r : Re) : Re := .seq r (.star greedy r)

def wsStar : Re := .star true rws
def ws1 : Re := rplus true rws
/-- `\d+` -/
def digits1 : Re := rplus true rdigit
/-- `\d+(?:\.\d+)?` -/
def numRe : Re := .seq digits1 (.opt true (.seq (rchar '.') digits1))
/-- `(.+?)` lazy any-sequence, at least one character. -/
def lazyDot1 : Re := .seq rdot (.star false rdot)

/-! ## Unit conversion helpers (`src/voice/intent.py` lines 246-266) -/

def strLowerS (s : String) : String := String.mk (s.data.map Char.toLower)

def stripS (s : String) : String := String.mk (stripChars s.data)

/-- `convert_weight_to_kg` (intent.py lines 247-254). -/
def convert_weight_to_kg (value : ℚ) (unit : Option String) : ℚ :=
  let u := match unit with
    | none => "kg"
    | some s => if s = "" then "kg" else strLowerS s
  if u = "lb" ∨ u = "lbs" ∨ u = "pound" ∨ u = "pounds" then value * (453592 / 1000000)
  else if u = "kg" ∨ u = "kilo" ∨ u = "kilos" ∨ u = "kilogram" ∨ u = "kilograms" then value
  else value

/-- `convert_to_grams` (intent.py lines 257-266).  Defined by the source but
referenced by no pattern extractor: food quantities are never converted at
extraction time (relevant to claim C4). -/
def convert_to_grams (value : ℚ) (unit : Option String) : ℚ :=
  let u := match unit with
    | none => "g"
    | some s => if s = "" then "g" else strLowerS s
  let conversions : List (String × ℚ) :=
    [("g", 1), ("gram", 1), ("grams", 1),
     ("oz", 2835/100), ("ounce", 2835/100), ("ounces", 2835/100),
     ("lb", 4536/10), ("lbs", 4536/10), ("pound", 4536/10), ("pounds", 4536/10),
     ("kg", 1000), ("kilo", 1000), ("kilos", 1000)]
  value * ((conversions.lookup u).getD 1)

/-! ## The PATTERNS rule list (`src/voice/intent.py` lines 271-378)

Each entry is the hand-translated regex, the intent name, and the
parameter extractor.  The Python extractor lambdas are total on the groups
their patterns guarantee, so the `try/except: continue` around extractor
calls in `parse_with_regex` (lines 430-443) is dead code and is not
modelled. -/

def intOfGroup (s : String) : ℤ := digitsVal s.data

def floatOfGroup (s : String) : ℚ := (pyFloat? s).getD 0

/-- `(?:add(?:ed)?|log(?:ged)?|ate|had|eaten)` -/
def verbRe5 : Re :=
  raltL [.seq (rstr "add") (.opt true (rstr "ed")),
         .seq (rstr "log") (.opt true (rstr "ged")),
         rstr "ate", rstr "had", rstr "eaten"]

/-- `(?:add(?:ed)?|log(?:ged)?|ate|had)` -/
def verbRe4 : Re :=
  raltL [.seq (rstr "add") (.opt true (rstr "ed")),
         .seq (rstr "log") (.opt true (rstr "ged")),
         rstr "ate", rstr "had"]

/-- `(?:calories?|cals?|kcal)` -/
def calTok : Re :=
  raltL [.seq (rstr "calorie") (.opt true (rchar 's')),
         .seq (rstr "cal") (.opt true (rchar 's')),
         rstr "kcal"]

/-- `(kg|lbs?|pounds?|kilos?)` (the alternation inside the group) -/
def weightUnitAlt : Re :=
  raltL [rstr "kg",
         .seq (rstr "lb") (.opt true (rchar 's')),
         .seq (rstr "pound") (.opt true (rchar 's')),
         .seq (rstr "kilo") (.opt true (rchar 's'))]

/-- `(g|grams?|oz|ounces?|cups?|pieces?|servings?|tbsp|tablespoons?|tsp|teaspoons?)` -/
def foodUnitAlt : Re :=
  raltL [rstr "g",
         .seq (rstr "gram") (.opt true (rchar 's')),
         rstr "oz",
         .seq (rstr "ounce") (.opt true (rchar 's')),
         .seq (rstr "cup") (.opt true (rchar 's')),
         .seq (rstr "piece") (.opt true (rchar 's')),
         .seq (rstr "serving") (.opt true (rchar 's')),
         rstr "tbsp",
         .seq (rstr "tablespoon") (.opt true (rchar 's')),
         rstr "tsp",
         .seq (rstr "teaspoon") (.opt true (rchar 's'))]

/-- Pattern 1: `(?:add(?:ed)?|log(?:ged)?|ate|had|eaten)\s+(\d+)\s*(?:calories?|cals?|kcal)` -/
def calDirectRe : Re :=
  .seq verbRe5 (.seq ws1 (.seq (.group 1 digits1) (.seq wsStar calTok)))

/-- Pattern 2: `(?:add(?:ed)?|log(?:ged)?|ate|had)\s+(.+?)\s+(\d+)\s*(?:calories?|cals?|kcal)` -/
def calFoodRe : Re :=
  .seq verbRe4 (.seq ws1 (.seq (.group 1 lazyDot1)
    (.seq ws1 (.seq (.group 2 digits1) (.seq wsStar calTok)))))

/-- Pattern 3: `vegetables?\s*,?\s*(\d+)\s*(?:servings?)?` -/
def vegetablesRe : Re :=
  .seq (rstr "vegetable") (.seq (.opt true (rchar 's')) (.seq wsStar
    (.seq (.opt true (rchar ',')) (.seq wsStar (.seq (.group 1 digits1)
      (.seq wsStar (.opt true (.seq (rstr "serving") (.opt true (rchar 's'))))))))))

/-- Pattern 4: `(?:add(?:ed)?|log(?:ged)?|ate|had)\s+(\d+(?:\.\d+)?)\s*(g|grams?|oz|ounces?|cups?|pieces?|servings?|tbsp|tablespoons?|tsp|teaspoons?)?\s*(?:of\s+)?(.+?)(?:\s+to\s+calories)?$` -/
def addFoodRe : Re :=
  .seq verbRe4 (.seq ws1 (.seq (.group 1 numRe) (.seq wsStar
    (.seq (.opt true (.group 2 foodUnitAlt)) (.seq wsStar
      (.seq (.opt true (.seq (rstr "of") ws1)) (.seq (.group 3 lazyDot1)
        (.seq (.opt true (.seq ws1 (.seq (rstr "to") (.seq ws1 (rstr "calories"))))) .eos))))))))

/-- Pattern 5: `(?:my\s+)?weight\s+(?:is\s+|was\s+|today\s+)?(\d+(?:\.\d+)?)\s*(kg|lbs?|pounds?|kilos?)?` -/
def weightIsRe : Re :=
  .seq (.opt true (.seq (rstr "my") ws1)) (.seq (rstr "weight") (.seq ws1
    (.seq (.opt true (raltL [.seq (rstr "is") ws1, .seq (rstr "was") ws1, .seq (rstr "today") ws1]))
      (.seq (.group 1 numRe) (.seq wsStar (.opt true (.group 2 weightUnitAlt)))))))

/-- Pattern 6: `(?:i\s+)?weigh(?:ed)?\s+(\d+(?:\.\d+)?)\s*(kg|lbs?|pounds?|kilos?)?` -/
def weighRe : Re :=
  .seq (.opt true (.seq (rstr "i") ws1)) (.seq (rstr "weigh") (.seq (.opt true (rstr "ed"))
    (.seq ws1 (.seq (.group 1 numRe) (.seq wsStar (.opt true (.group 2 weightUnitAlt)))))))

/-- `(?:hours?)?` -/
def hoursTokOpt : Re := .opt true (.seq (rstr "hour") (.opt true (rchar 's')))

/-- Pattern 7: `(?:i\s+)?slept\s+(\d+)\s+and\s+a\s+half\s*(?:hours?)?` -/
def sleptHalfRe : Re :=
  .seq (.opt true (.seq (rstr "i") ws1)) (.seq (rstr "slept") (.seq ws1
    (.seq (.group 1 digits1) (.seq ws1 (.seq (rstr "and") (.seq ws1 (.seq (rstr "a")
      (.seq ws1 (.seq (rstr "half") (.seq wsStar hoursTokOpt))))))))))

/-- Pattern 8: `(?:i\s+)?slept\s+(\d+)\s+and\s+a\s+quarter\s*(?:hours?)?` -/
def sleptQuarterRe : Re :=
  .seq (.opt true (.seq (rstr "i") ws1)) (.seq (rstr "slept") (.seq ws1
    (.seq (.group 1 digits1) (.seq ws1 (.seq (rstr "and") (.seq ws1 (.seq (rstr "a")
      (.seq ws1 (.seq (rstr "quarter") (.seq wsStar hoursTokOpt))))))))))

/-- Pattern 9: `(?:i\s+)?slept\s+(\d+)\s+and\s+three\s+quarters?\s*(?:hours?)?` -/
def sleptThreeQRe : Re :=
  .seq (.opt true (.seq (rstr "i") ws1)) (.seq (rstr "slept") (.seq ws1
    (.seq (.group 1 digits1) (.seq ws1 (.seq (rstr "and") (.seq ws1 (.seq (rstr "three")
      (.seq ws1 (.seq (rstr "quarter") (.seq (.opt true (rchar 's')) (.seq wsStar hoursTokOpt)))))))))))

/-- Pattern 10: `(?:i\s+)?slept\s+(\d+(?:\.\d+)?)\s*(?:hours?)?` -/
def sleptRe : Re :=
  .seq (.opt true (.seq (rstr "i") ws1)) (.seq (rstr "slept") (.seq ws1
    (.seq (.group 1 numRe) (.seq wsStar hoursTokOpt))))

/-- Pattern 11: `(?:got\s+)?(\d+)\s+and\s+a\s+half\s*(?:hours?\s+)?(?:of\s+)?sleep` -/
def gotHalfSleepRe : Re :=
  .seq (.opt true (.seq (rstr "got") ws1)) (.seq (.group 1 digits1) (.seq ws1
    (.seq (rstr "and") (.seq ws1 (.seq (rstr "a") (.seq ws1 (.seq (rstr "half")
      (.seq wsStar (.seq (.opt true (.seq (rstr "hour") (.seq (.opt true (rchar 's')) ws1)))
        (.seq (.opt true (.seq (rstr "of") ws1)) (rstr "sleep")))))))))))

/-- Pattern 12: `(?:got\s+)?(\d+(?:\.\d+)?)\s*(?:hours?\s+)?(?:of\s+)?sleep` -/
def gotSleepRe : Re :=
  .seq (.opt true (.seq (rstr "got") ws1)) (.seq (.group 1 numRe)
    (.seq wsStar (.seq (.opt true (.seq (rstr "hour") (.seq (.opt true (rchar 's')) ws1)))
      (.seq (.opt true (.seq (rstr "of") ws1)) (rstr "sleep")))))

/-- `(?:i\s+)?woke\s+(?:up\s+)?(?:at\s+)?` -/
def wokePrefixRe : Re :=
  .seq (.opt true (.seq (rstr "i") ws1)) (.seq (rstr "woke") (.seq ws1
    (.seq (.opt true (.seq (rstr "up") ws1)) (.opt true (.seq (rstr "at") ws1)))))

/-- `(\d{1,2})` -/
def hourDigitsRe : Re := .seq rdigit (.opt true rdigit)

/-- Pattern 13: `(?:i\s+)?woke\s+(?:up\s+)?(?:at\s+)?(\d{1,2})\s+(\d{2})\s*(am|pm)?` -/
def wakeSpaceRe : Re :=
  .seq wokePrefixRe (.seq (.group 1 hourDigitsRe) (.seq ws1
    (.seq (.group 2 (.seq rdigit rdigit)) (.seq wsStar
      (.opt true (.group 3 (.alt (rstr "am") (rstr "pm"))))))))

/-- Pattern 14: `(?:i\s+)?woke\s+(?:up\s+)?(?:at\s+)?(\d{1,2})(?::(\d{2}))?\s*(am|pm)?` -/
def wakeColonRe : Re :=
  .seq wokePrefixRe (.seq (.group 1 hourDigitsRe)
    (.seq (.opt true (.seq (rchar ':') (.group 2 (.seq rdigit rdigit)))) (.seq wsStar
      (.opt true (.group 3 (.alt (rstr "am") (rstr "pm")))))))

/-- Pattern 15: `(?:i\s+)?(?:worked\s+out|exercised|did\s+(?:a\s+)?workout)\s*(?:for\s+)?(\d+)\s*(?:minutes?|mins?)?` -/
def workoutRe : Re :=
  .seq (.opt true (.seq (rstr "i") ws1))
    (.seq (raltL [.seq (rstr "worked") (.seq ws1 (rstr "out")),
                  rstr "exercised",
                  .seq (rstr "did") (.seq ws1 (.seq (.opt true (.seq (rstr "a") ws1)) (rstr "workout")))])
      (.seq wsStar (.seq (.opt true (.seq (rstr "for") ws1)) (.seq (.group 1 digits1)
        (.seq wsStar (.opt true (raltL [.seq (rstr "minute") (.opt true (rchar 's')),
                                        .seq (rstr "min") (.opt true (rchar 's'))])))))))

/-- Pattern 16: `(\d+)\s*(?:minute|min)\s*(?:workout|exercise)` -/
def minWorkoutRe : Re :=
  .seq (.group 1 digits1) (.seq wsStar (.seq (.alt (rstr "minute") (rstr "min"))
    (.seq wsStar (.alt (rstr "workout") (rstr "exercise")))))

/-- The parameter extractor shared (as two identical lambdas, intent.py
lines 309 and 314) by both weight rules:
`{"weight_kg": convert_weight_to_kg(float(m.group(1)), m.group(2))}`. -/
def weightExtract (m : MatchData) : Params :=
  [("weight_kg", .float (convert_weight_to_kg (floatOfGroup ((m.group 1).getD "")) (m.group 2)))]

/-- The wake-time hour arithmetic of patterns 13/14:
`int(g1) + (12 if g3 == "pm" and int(g1) != 12 else 0)`. -/
def wakeHour (g1 : String) (g3 : Option String) : ℤ :=
  intOfGroup g1 +
    (if (g3.map strLowerS = some "pm") ∧ intOfGroup g1 ≠ 12 then 12 else 0)

/-- `PATTERNS` (intent.py lines 271-378), in source order. -/
def PATTERNS : List (Re × String × (MatchData → Params)) :=
  [(calDirectRe, "add_calories", fun m =>
      [("calories", .int (intOfGroup ((m.group 1).getD "")))]),
   (calFoodRe, "add_calories", fun m =>
      [("food", .str (stripS ((m.group 1).getD ""))),
       ("calories", .int (intOfGroup ((m.group 2).getD "")))]),
   (vegetablesRe, "log_vegetables", fun m =>
      [("servings", .int (intOfGroup ((m.group 1).getD "")))]),
   (addFoodRe, "add_food", fun m =>
      [("quantity", .float (floatOfGroup ((m.group 1).getD ""))),
       ("unit", .str ((m.group 2).getD "serving")),
       ("food", .str (stripS ((m.group 3).getD "")))]),
   (weightIsRe, "log_weight", weightExtract),
   (weighRe, "log_weight", weightExtract),
   (sleptHalfRe, "log_sleep", fun m =>
      [("hours", .float (floatOfGroup ((m.group 1).getD "") + 1/2))]),
   (sleptQuarterRe, "log_sleep", fun m =>
      [("hours", .float (floatOfGroup ((m.group 1).getD "") + 1/4))]),
   (sleptThreeQRe, "log_sleep", fun m =>
      [("hours", .float (floatOfGroup ((m.group 1).getD "") + 3/4))]),
   (sleptRe, "log_sleep", fun m =>
      [("hours", .float (floatOfGroup ((m.group 1).getD "")))]),
   (gotHalfSleepRe, "log_sleep", fun m =>
      [("hours", .float (floatOfGroup ((m.group 1).getD "") + 1/2))]),
   (gotSleepRe, "log_sleep", fun m =>
      [("hours", .float (floatOfGroup ((m.group 1).getD "")))]),
   (wakeSpaceRe, "log_wake", fun m =>
      [("hour", .int (wakeHour ((m.group 1).getD "") (m.group 3))),
       ("minute", .int (intOfGroup ((m.group 2).getD "")))]),
   (wakeColonRe, "log_wake", fun m =>
      [("hour", .int (wakeHour ((m.group 1).getD "") (m.group 3))),
       ("minute", .int (match m.group 2 with | some g => intOfGroup g | none => 0))]),
   (workoutRe, "log_workout", fun m =>
      [("duration_minutes", .int (intOfGroup ((m.group 1).getD "")))]),
   (minWorkoutRe, "log_workout", fun m =>
      [("duration_minutes", .int (intOfGroup ((m.group 1).getD "")))])]

/-! ## Text preprocessing (`src/voice/intent.py` lines 208-243) -/

/-- Python `int(float)` truncation toward zero. -/
def pyTrunc (q : ℚ) : ℤ := q.num.tdiv (q.den : ℤ)

/-- `\b(\w+)\s+and\s+a\s+half\b` (and the quarter variant). -/
def fracARe (word : String) : Re :=
  .seq .bound (.seq (.group 1 (rplus true rword)) (.seq ws1 (.seq (rstr "and")
    (.seq ws1 (.seq (rstr "a") (.seq ws1 (.seq (rstr word) .bound)))))))

/-- `\b(\w+)\s+and\s+three\s+quarters?\b` -/
def threeQuartersRe : Re :=
  .seq .bound (.seq (.group 1 (rplus true rword)) (.seq ws1 (.seq (rstr "and")
    (.seq ws1 (.seq (rstr "three") (.seq ws1
      (.seq (rstr "quarter") (.seq (.opt true (rchar 's')) .bound))))))))

/-- The fraction replacement lambdas (intent.py lines 222-230):
`str(float(words_to_number(g1) or 0) + frac) if words_to_number(g1) else g0`. -/
def fracRepl (frac : ℚ) (m : MatchData) : List Char :=
  match words_to_number ((m.group 1).getD "") with
  | some v => (decimalRepr (v + frac)).data
  | none => ((m.group 0).getD "").data

def numWordList : List String :=
  ["one", "two", "three", "four", "five", "six", "seven", "eight", "nine",
   "ten", "eleven", "twelve", "thirteen", "fourteen", "fifteen", "sixteen",
   "seventeen", "eighteen", "nineteen", "twenty", "thirty", "forty", "fifty",
   "sixty", "seventy", "eighty", "ninety", "hundred", "thousand"]

def numWordAlt : Re := raltL (numWordList.map rstr)

/-- The general word-number pattern (intent.py lines 234-238):
`\b((?:one|...|thousand)(?:\s+(?:and\s+)?(?:one|...|thousand))*)\b`. -/
def numPhraseRe : Re :=
  .seq .bound (.seq (.group 1 (.seq numWordAlt
    (.star true (.seq ws1 (.seq (.opt true (.seq (rstr "and") ws1)) numWordAlt))))) .bound)

/-- Its replacement: `str(int(words_to_number(g1))) if words_to_number(g1) else g1`. -/
def numRepl (m : MatchData) : List Char :=
  let g := (m.group 1).getD ""
  match words_to_number g with
  | some v => (intRepr (pyTrunc v)).data
  | none => g.data

/-- `preprocess_text` (intent.py lines 208-243): lowercase; leave wake-time
texts untouched; convert the three fraction forms, then the general cardinal
phrases, to digit literals.  (The `re.IGNORECASE` flag on the general sub is
moot: the subject was already lowercased.) -/
def preprocess_text (text : String) : List Char :=
  let result := text.data.map Char.toLower
  if (search result (.alt (rstr "woke") (rstr "wake"))).isSome then result
  else
    let r := rsub result (fracARe "half") (fracRepl (1/2))
    let r := rsub r (fracARe "quarter") (fracRepl (1/4))
    let r := rsub r threeQuartersRe (fracRepl (3/4))
    rsub r numPhraseRe numRepl

/-! ## Word-based wake times (`src/voice/intent.py` lines 112-123, 173-205,
381-410) -/

/-- `TIME_MINUTES` (intent.py lines 112-123). -/
def TIME_MINUTES : List (String × ℤ) :=
  [("oh one", 1), ("oh two", 2), ("oh three", 3), ("oh four", 4), ("oh five", 5),
   ("oh six", 6), ("oh seven", 7), ("oh eight", 8), ("oh nine", 9),
   ("ten", 10), ("eleven", 11), ("twelve", 12), ("thirteen", 13), ("fourteen", 14),
   ("fifteen", 15), ("sixteen", 16), ("seventeen", 17), ("eighteen", 18), ("nineteen", 19),
   ("twenty", 20), ("twenty one", 21), ("twenty two", 22), ("twenty three", 23),
   ("twenty four", 24), ("twenty five", 25), ("twenty six", 26), ("twenty seven", 27),
   ("twenty eight", 28), ("twenty nine", 29), ("thirty", 30), ("thirty one", 31),
   ("thirty two", 32), ("thirty three", 33), ("thirty four", 34), ("thirty five", 35),
   ("thirty six", 36), ("thirty seven", 37), ("thirty eight", 38), ("thirty nine", 39),
   ("forty", 40), ("forty five", 45), ("fifty", 50), ("fifty five", 55)]

def timeHourAlt : Re :=
  raltL (["one", "two", "three", "four", "five", "six", "seven", "eight", "nine",
          "ten", "eleven", "twelve"].map rstr)

def timeMinuteAlt : Re :=
  raltL [.seq (rstr "oh") (.seq ws1 (rplus true rword)),
         rstr "ten", rstr "eleven", rstr "twelve", rstr "thirteen", rstr "fourteen",
         rstr "fifteen", rstr "sixteen", rstr "seventeen", rstr "eighteen", rstr "nineteen",
         rstr "twenty", .seq (rstr "twenty") (.seq ws1 (rplus true rword)),
         rstr "thirty", .seq (rstr "thirty") (.seq ws1 (rplus true rword)),
         rstr "forty", .seq (rstr "forty") (.seq ws1 (rplus true rword)),
         rstr "fifty", .seq (rstr "fifty") (.seq ws1 (rplus true rword))]

def timeAmpmAlt : Re :=
  raltL [rstr "am", rstr "pm",
         .seq (rchar 'a') (.seq wsStar (rchar 'm')),
         .seq (rchar 'p') (.seq wsStar (rchar 'm'))]

/-- The `time_pattern` regex (intent.py line 179). -/
def timeRe : Re :=
  .seq .bound (.seq (.group 1 timeHourAlt) (.seq ws1
    (.seq (.opt true (.group 2 timeMinuteAlt))
      (.seq wsStar (.seq (.opt true (.group 3 timeAmpmAlt)) .bound)))))

/-- `parse_time_words` (intent.py lines 173-205): word-based clock times such
as "seven thirty am"; returns (hour, minute, am/pm) or all-`None`. -/
def parse_time_words (text : String) : Option ℤ × Option ℤ × Option String :=
  let lower := text.data.map Char.toLower
  match search lower timeRe with
  | none => (none, none, none)
  | some (a, b, caps) =>
      let m : MatchData := ⟨lower, a, b, caps⟩
      let hour_word := (m.group 1).getD ""
      let minute_word := m.group 2
      let ampm := m.group 3
      let hour : ℚ := (List.lookup hour_word WORD_NUMBERS).getD 0
      let minute : ℤ :=
        match minute_word with
        | none => 0
        | some mw0 =>
            let mw := stripS mw0
            match List.lookup mw TIME_MINUTES with
            | some v => v
            | none =>
                match words_to_number mw with
                | some q => pyTrunc q
                | none => 0
      let ampm := ampm.map (fun s => String.mk ((s.data.filter (fun c => c ≠ ' ')).map Char.toLower))
      (some (pyTrunc hour), some minute, ampm)

/-- `woke\s+(?:up\s+)?(?:at\s+)?(.+)` (intent.py line 384). -/
def wakeGuardRe : Re :=
  .seq (rstr "woke") (.seq ws1 (.seq (.opt true (.seq (rstr "up") ws1))
    (.seq (.opt true (.seq (rstr "at") ws1)) (.group 1 (rplus true rdot)))))

/-- `parse_wake_time_words` (intent.py lines 381-410). -/
def parse_wake_time_words (text : String) : Option ParsedIntent :=
  let lower := text.data.map Char.toLower
  match search lower wakeGuardRe with
  | none => none
  | some (a, b, caps) =>
      let m : MatchData := ⟨lower, a, b, caps⟩
      let time_part := stripS ((m.group 1).getD "")
      match parse_time_words time_part with
      | (none, _, _) => none
      | (some hour, minute, ampm) =>
          let minute := minute.getD 0
          let hour :=
            if ampm = some "pm" ∧ hour ≠ 12 then hour + 12
            else if ampm = some "am" ∧ hour = 12 then 0
            else hour
          some ⟨"log_wake", [("hour", .int hour), ("minute", .int minute)], text, 1⟩

/-! ## `parse_with_regex` (`src/voice/intent.py` lines 413-445) -/

/-- The `for pattern, intent, extractor in PATTERNS` loop: first matching
rule wins, in list order. -/
def runPatterns (text : String) (processed : List Char) :
    List (Re × String × (MatchData → Params)) → Option ParsedIntent
  | [] => none
  | (re, intent, ext) :: rest =>
      match search processed re with
      | some (a, b, caps) => some ⟨intent, ext ⟨processed, a, b, caps⟩, text, 1⟩
      | none => runPatterns text processed rest

/-- `parse_with_regex` (intent.py lines 413-445): the word-based wake-time
special case runs first when the text mentions "woke"; otherwise the text is
preprocessed and the ordered rule list is tried first-match-wins. -/
def parse_with_regex (text : String) : Option ParsedIntent :=
  let wakeResult :=
    if (search (text.data.map Char.toLower) (rstr "woke")).isSome then
      parse_wake_time_words text
    else none
  match wakeResult with
  | some r => some r
  | none => runPatterns text (preprocess_text text) PATTERNS

/-! ## Claims C3, C4, C9 -/

unseal Rat.add Rat.mul Rat.sub Rat.inv in
/-- C3: every match of a built-in weight rule goes through `weightExtract`,
which stores the converted weight under the key `weight_kg` and stores
nothing under `weight_lbs`; dispatching such a `log_weight` intent therefore
hits `cmd_log_weight`'s required-parameter check on `weight_lbs` and returns
`success = false` with "I didn't catch your weight." and no HTTP request.
The last conjunct runs the full parser on the claim's example utterance. -/
theorem weight_param_key_mismatch (m : MatchData) (env : ApiEnv) (raw : String) :
    (weightExtract m).get? "weight_kg" =
      some (.float (convert_weight_to_kg (floatOfGroup ((m.group 1).getD "")) (m.group 2))) ∧
    (weightExtract m).get? "weight_lbs" = none ∧
    execute_command ⟨"log_weight", weightExtract m, raw, 1⟩ env =
      (⟨false, "I didn't catch your weight.", none⟩, []) ∧
    parse_with_regex "my weight is 180 pounds" =
      some ⟨"log_weight", [("weight_kg", .float (180 * (453592 / 1000000)))],
            "my weight is 180 pounds", 1⟩ :=
  ⟨rfl, rfl, rfl, by decide⟩

unseal Rat.add Rat.mul Rat.sub Rat.inv in
/-- C9: "vegetables, 3 servings" parses to `log_vegetables` with
`servings = 3` (hence not to `add_food`), and in the ordered first-match-wins
rule list the vegetable rule (index 2) precedes the generic food rule
(index 3). -/
theorem vegetables_rule_priority :
    parse_with_regex "vegetables, 3 servings" =
      some ⟨"log_vegetables", [("servings", .int 3)], "vegetables, 3 servings", 1⟩ ∧
    (PATTERNS.map (fun e => e.2.1)).get? 2 = some "log_vegetables" ∧
    (PATTERNS.map (fun e => e.2.1)).get? 3 = some "add_food" :=
  ⟨by decide, rfl, rfl⟩

/-- A test environment for the add-food pipeline: the food search finds
"rice" with id 1, the compute endpoint reports 130 calories, everything else
succeeds. -/
def env1 : ApiEnv :=
  ⟨"2026-01-01", fun r =>
    if r.endpoint = "/api/foods/search?q=rice&limit=1" then
      .ok 200 { foods := [⟨1, "rice"⟩] }
    else if r.endpoint = "/api/foods/compute" then
      .ok 200 { calories := 130 }
    else .ok 200 {}⟩

unseal Rat.add Rat.mul Rat.sub Rat.inv in
/-- C4 counterexample: parsing "add 2 cups of rice to calories" hands the
dispatcher the raw unit "cups" with the unconverted quantity 2 — no
volume-to-canonical-unit conversion happens at extraction time
(`convert_to_grams` is referenced by no extractor). -/
theorem cups_reach_dispatcher_raw :
    parse_with_regex "add 2 cups of rice to calories" =
      some ⟨"add_food", [("quantity", .float 2), ("unit", .str "cups"), ("food", .str "rice")],
            "add 2 cups of rice to calories", 1⟩ := by decide

unseal Rat.add Rat.mul Rat.sub Rat.inv in
/-- C4 amended: weight conversions are applied at extraction time
(180 pounds becomes `180 * 0.453592` kilograms in the `weight_kg` parameter),
but food quantities are not: the dispatcher receives the raw unit and
forwards the uninterpreted quantity string "2.0cups" to the API's compute
endpoint, which owns the conversion. -/
theorem weight_converted_cups_forwarded :
    parse_with_regex "my weight is 180 pounds" =
      some ⟨"log_weight", [("weight_kg", .float (180 * (453592 / 1000000)))],
            "my weight is 180 pounds", 1⟩ ∧
    (cmd_add_food [("quantity", .float 2), ("unit", .str "cups"), ("food", .str "rice")] env1).2 =
      [⟨.get, "/api/foods/search?q=rice&limit=1", []⟩,
       ⟨.post, "/api/foods/compute", [("food_id", .int 1), ("quantity", .str "2.0cups")]⟩,
       ⟨.post, "/api/calories",
        [("date", .str "2026-01-01"), ("meal_name", .str "rice"), ("calories", .float 130),
         ("food_id", .int 1), ("quantity", .str "2.0cups")]⟩] :=
  ⟨by decide, by decide⟩

/-! ## The custom-metric pattern cache (`src/voice/intent.py` lines 15-86)

The module globals `_custom_metric_patterns` / `_patterns_loaded` become an
explicit state record; the single `req.get` of a loader run becomes a
`FetchOutcome` argument, and each operation reports how many fetches it
issued. -/

/-- One cached pattern entry as built by the loader: `{"id": m["id"],
"name": m["name"], "keyword": keyword, "pattern": ...}`.  The `pattern`
regex string is a function of the keyword and is not duplicated in the
state. -/
structure MetricPattern where
  id : ℤ
  name : String
  keyword : String
  deriving DecidableEq, Repr

structure PatternCacheState where
  _custom_metric_patterns : List MetricPattern
  _patterns_loaded : Bool
  deriving DecidableEq, Repr

/-- Outcome of the loader's one `req.get`: a decoded response (status code
plus the `metrics` list), or any exception on the fetch/decode — caught by
the loader's blanket `except`. -/
inductive FetchOutcome where
  | ok (status : ℕ) (metrics : List MetricRecord)
  | exn
  deriving DecidableEq

/-- The `for m in metrics` loop (intent.py lines 31-42) run against an
accumulator: records without a (truthy) `voice_keyword` are skipped; a
record with a keyword but without `id` or `name` raises `KeyError` inside
the `append` argument, aborting the loop — the flag in the result is false
and the first component is the partial list appended so far. -/
def buildPatterns : List MetricRecord → List MetricPattern → List MetricPattern × Bool
  | [], acc => (acc, true)
  | m :: ms, acc =>
      match m.voice_keyword with
      | none => buildPatterns ms acc
      | some kw =>
          if kw = "" then buildPatterns ms acc
          else
            match m.id, m.name with
            | some i, some n => buildPatterns ms (acc ++ [⟨i, n, kw⟩])
            | _, _ => (acc, false)

/-- `load_custom_metric_patterns` (intent.py lines 20-49): always issues
exactly one GET.  On HTTP 200 the global list is reassigned to `[]` and
rebuilt record by record, so a mid-loop `KeyError` leaves the partially
built list in place with the loaded flag unchanged; a complete rebuild sets
the flag; a non-200 status or a fetch/decode exception leaves the state
untouched.  Returns the new state and the fetch count. -/
def load_custom_metric_patterns (st : PatternCacheState) (fetch : FetchOutcome) :
    PatternCacheState × ℕ :=
  match fetch with
  | .exn => (st, 1)
  | .ok status metrics =>
      if status = 200 then
        match buildPatterns metrics [] with
        | (pats, true) => (⟨pats, true⟩, 1)
        | (pats, false) => (⟨pats, st._patterns_loaded⟩, 1)
      else (st, 1)

/-- The cache-check step at the top of `parse_custom_metrics` (intent.py
lines 56-58): load only when the flag is down; the subsequent pattern scan
issues no fetch. -/
def ensure_patterns_loaded (st : PatternCacheState) (fetch : FetchOutcome) :
    PatternCacheState × ℕ :=
  if st._patterns_loaded then (st, 0)
  else load_custom_metric_patterns st fetch

/-- `reload_custom_patterns` (intent.py lines 82-86): clear the flag, then
load unconditionally. -/
def reload_custom_patterns (st : PatternCacheState) (fetch : FetchOutcome) :
    PatternCacheState × ℕ :=
  load_custom_metric_patterns ⟨st._custom_metric_patterns, false⟩ fetch

/-- Modelled from the spec: the complete replacement list a full rebuild of
the fetched metrics describes — one entry per record with a voice keyword
("never partially updated (full replace only)"). -/
def fullReplaceList (ms : List MetricRecord) : List MetricPattern :=
  ms.filterMap (fun m =>
    match m.voice_keyword with
    | none => none
    | some kw => if kw = "" then none else some ⟨m.id.getD 0, m.name.getD "", kw⟩)

theorem buildPatterns_complete (ms : List MetricRecord) (acc : List MetricPattern)
    (h : (buildPatterns ms acc).2 = true) :
    (buildPatterns ms acc).1 = acc ++ fullReplaceList ms := by
  induction ms generalizing acc with
  | nil => simp [buildPatterns, fullReplaceList]
  | cons m ms ih =>
      cases hkw : m.voice_keyword with
      | none =>
          simp only [buildPatterns, hkw] at h ⊢
          simpa [fullReplaceList, hkw] using ih acc h
      | some kw =>
          by_cases hempty : kw = ""
          · simp only [buildPatterns, hkw, hempty, if_pos rfl] at h ⊢
            simpa [fullReplaceList, hkw, hempty] using ih acc h
          · cases hid : m.id with
            | none => simp [buildPatterns, hkw, hempty, hid] at h
            | some i =>
                cases hname : m.name with
                | none => simp [buildPatterns, hkw, hempty, hid, hname] at h
                | some n =>
                    simp only [buildPatterns, hkw, hempty, if_neg hempty, hid, hname,
                      if_false, ite_false] at h ⊢
                    rw [ih _ h]
                    simp [fullReplaceList, hkw, hempty, hid, hname]

/-- C6 counterexample: when the first run's fetch fails, the loaded flag
stays down, so the second run — with no intervening reload — issues a second
fetch rather than hitting the cache. -/
theorem loader_refetch_after_failure :
    (ensure_patterns_loaded ⟨[], false⟩ .exn).2 = 1 ∧
    (ensure_patterns_loaded (ensure_patterns_loaded ⟨[], false⟩ .exn).1 .exn).2 = 1 := by
  decide

/-- C6 amended: when the first run's fetch succeeds (HTTP 200 and every
keyworded record well formed), the second run is a cache hit and issues no
fetch; and an explicit reload always issues exactly one fetch regardless of
prior cache state.  After a failed fetch the counterexample shows the second
run fetches again. -/
theorem loader_cache_idempotent (st : PatternCacheState) (ms : List MetricRecord)
    (hcomplete : (buildPatterns ms []).2 = true) (f2 : FetchOutcome) :
    (ensure_patterns_loaded (ensure_patterns_loaded st (.ok 200 ms)).1 f2).2 = 0 ∧
    ∀ (st2 : PatternCacheState) (f : FetchOutcome), (reload_custom_patterns st2 f).2 = 1 := by
  constructor
  · by_cases hl : st._patterns_loaded
    · simp [ensure_patterns_loaded, hl]
    · match hbuild : buildPatterns ms [] with
      | (pats, true) =>
          simp [ensure_patterns_loaded, hl, load_custom_metric_patterns, hbuild]
      | (pats, false) =>
          rw [hbuild] at hcomplete
          simp at hcomplete
  · intro st2 f
    cases f with
    | exn => rfl
    | ok status ms2 =>
        by_cases hs : status = 200
        · subst hs
          simp only [reload_custom_patterns, load_custom_metric_patterns, if_pos rfl]
          match buildPatterns ms2 [] with
          | (_, true) => rfl
          | (_, false) => rfl
        · simp [reload_custom_patterns, load_custom_metric_patterns, hs]

/-- Witness for C6 amended: a successful empty load, then a cache hit; and
one concrete reload issuing one fetch. -/
theorem loader_cache_idempotent_witness :
    (ensure_patterns_loaded (ensure_patterns_loaded ⟨[], false⟩ (.ok 200 [])).1 .exn).2 = 0 ∧
    (reload_custom_patterns ⟨[], false⟩ .exn).2 = 1 :=
  ⟨(loader_cache_idempotent ⟨[], false⟩ [] rfl .exn).1,
   (loader_cache_idempotent ⟨[], false⟩ [] rfl .exn).2 ⟨[], false⟩ .exn⟩

/-- C7 counterexample: reloading over a previously complete cache with a
response whose second record carries a voice keyword but no id leaves a
PARTIALLY built list: the first record's pattern is present, the third
well-formed record's pattern is missing, and the result is neither the
previous complete list nor the full replacement list of the response. -/
theorem pattern_cache_partial_update :
    (reload_custom_patterns ⟨[⟨9, "Old", "old"⟩], true⟩
        (.ok 200 [⟨some 1, some "Water", some "water"⟩,
                  ⟨none, some "Meds", some "medication"⟩,
                  ⟨some 3, some "Steps", some "steps"⟩])).1 =
      ⟨[⟨1, "Water", "water"⟩], false⟩ ∧
    ([(⟨1, "Water", "water"⟩ : MetricPattern)] ≠ [⟨9, "Old", "old"⟩]) ∧
    fullReplaceList [⟨some 1, some "Water", some "water"⟩,
                     ⟨none, some "Meds", some "medication"⟩,
                     ⟨some 3, some "Steps", some "steps"⟩] =
      [⟨1, "Water", "water"⟩, ⟨0, "Meds", "medication"⟩, ⟨3, "Steps", "steps"⟩] ∧
    ([(⟨1, "Water", "water"⟩ : MetricPattern)] ≠
      [⟨1, "Water", "water"⟩, ⟨0, "Meds", "medication"⟩, ⟨3, "Steps", "steps"⟩]) := by
  decide

/-- C7 amended: provided every fetched record carrying a voice keyword also
carries its id and name, a loader run is atomic: the pattern list afterwards
is either exactly the previous list (fetch exception or non-200 status) or
exactly the complete replacement list of the fetched metrics (HTTP 200).  A
keyworded record missing id/name aborts the rebuild mid-loop and leaves a
partial list, as the counterexample shows. -/
theorem pattern_cache_full_replace (st : PatternCacheState) (f : FetchOutcome)
    (hwf : ∀ status ms, f = .ok status ms → (buildPatterns ms []).2 = true) :
    (load_custom_metric_patterns st f).1._custom_metric_patterns = st._custom_metric_patterns ∨
    ∃ status ms, f = .ok status ms ∧ status = 200 ∧
      (load_custom_metric_patterns st f).1._custom_metric_patterns = fullReplaceList ms := by
  cases f with
  | exn => exact Or.inl rfl
  | ok status ms =>
      by_cases hs : status = 200
      · subst hs
        refine Or.inr ⟨200, ms, rfl, rfl, ?_⟩
        have hc := hwf 200 ms rfl
        have hfull := buildPatterns_complete ms [] hc
        simp only [load_custom_metric_patterns, if_pos rfl]
        match hbuild : buildPatterns ms [] with
        | (pats, true) =>
            rw [hbuild] at hfull
            simpa using hfull
        | (pats, false) =>
            rw [hbuild] at hc
            simp at hc
      · left
        simp [load_custom_metric_patterns, hs]

/-- Witness for C7 amended: a well-formed single-record load from an empty
cache lands in the full-replace disjunct. -/
theorem pattern_cache_full_replace_witness :
    (load_custom_metric_patterns ⟨[], false⟩
        (.ok 200 [⟨some 1, some "Water", some "water"⟩])).1._custom_metric_patterns = [] ∨
    ∃ status ms, (FetchOutcome.ok 200 [⟨some 1, some "Water", some "water"⟩]) = .ok status ms ∧
      status = 200 ∧
      (load_custom_metric_patterns ⟨[], false⟩
          (.ok 200 [⟨some 1, some "Water", some "water"⟩])).1._custom_metric_patterns =
        fullReplaceList ms :=
  pattern_cache_full_replace ⟨[], false⟩ (.ok 200 [⟨some 1, some "Water", some "water"⟩])
    (by intro status ms h; cases h; rfl)

/-! ## Wake-word wait loop (`src/voice/listener.py` lines 77-138, config.py
lines 26-27)

Time is abstract: the caller's clock reads `now` on entry, `lastWake` is the
`last_wake_time` stored at the previous accepted detection, and each frame
carries the wall-clock time at which its blocking read returns.  The loop's
side effects are recorded as an action trace (`sleep`, model `reset`, frame
reads).  The physical premise that frames are read only after listening
resumes (the stream is opened after the refractory sleep) appears as a
hypothesis on the frame times. -/

def WAKE_WORD_THRESHOLD : ℚ := 7/10
def WAKE_WORD_REFRACTORY : ℚ := 2

structure Frame where
  time : ℚ
  scores : List (String × ℚ)

inductive ListenAction where
  | sleep (duration : ℚ)
  | resetModel
  | readFrame
  deriving DecidableEq, Repr

/-- The inner read-predict loop (listener.py lines 106-129): each frame is
read and scored; the first model whose confidence exceeds the threshold
wins and the loop returns with that frame's time. -/
def scanFrames : List Frame → List ListenAction × Option (ℚ × String)
  | [] => ([], none)
  | f :: fs =>
      match f.scores.find? (fun p => WAKE_WORD_THRESHOLD < p.2) with
      | some hit => ([.readFrame], some (f.time, hit.1))
      | none =>
          let r := scanFrames fs
          (.readFrame :: r.1, r.2)

/-- The residual refractory wait performed on entry (listener.py lines
82-88). -/
def refractoryWait (lastWake now : ℚ) : ℚ :=
  if now - lastWake < WAKE_WORD_REFRACTORY then
    WAKE_WORD_REFRACTORY - (now - lastWake)
  else 0

/-- `wait_for_wake_word` (listener.py lines 77-138): sleep out the remainder
of the refractory interval, reset the wake model, then read frames until a
score crosses the threshold; an exhausted frame list models a stream
error/interrupt (`return False`).  On detection, `last_wake_time` becomes
the detection time. -/
def wait_for_wake_word (lastWake now : ℚ) (frames : List Frame) :
    List ListenAction × Option (ℚ × String) :=
  let pre : List ListenAction :=
    if now - lastWake < WAKE_WORD_REFRACTORY then [.sleep (refractoryWait lastWake now)] else []
  let r := scanFrames frames
  (pre ++ [.resetModel] ++ r.1, r.2)

theorem scanFrames_det_mem (frames : List Frame) (t : ℚ) (name : String)
    (h : (scanFrames frames).2 = some (t, name)) :
    ∃ f ∈ frames, f.time = t := by
  induction frames with
  | nil => simp [scanFrames] at h
  | cons f fs ih =>
      simp only [scanFrames] at h
      cases hf : f.scores.find? (fun p => WAKE_WORD_THRESHOLD < p.2) with
      | some hit =>
          rw [hf] at h
          simp at h
          exact ⟨f, List.mem_cons_self f fs, h.1⟩
      | none =>
          rw [hf] at h
          simp at h
          obtain ⟨g, hg, hgt⟩ := ih h
          exact ⟨g, List.mem_cons_of_mem f hg, hgt⟩

theorem scanFrames_actions (frames : List Frame) :
    ∀ a ∈ (scanFrames frames).1, a = .readFrame := by
  induction frames with
  | nil => simp [scanFrames]
  | cons f fs ih =>
      simp only [scanFrames]
      cases hf : f.scores.find? (fun p => WAKE_WORD_THRESHOLD < p.2) with
      | some hit => simp
      | none =>
          intro a ha
          simp at ha
          rcases ha with ha | ha
          · exact ha
          · exact ih a ha

/-- C5: within one execution of the wait loop, (1) any accepted detection
happens no earlier than `last_wake_time + WAKE_WORD_REFRACTORY` — a
detection event arriving before the refractory interval elapses cannot be
accepted, because the stream is only read after the residual wait; and
(2) the action trace is an optional sleep, then exactly one model reset,
then only frame reads — the model state is reset before listening
resumes. -/
theorem wake_refractory (lastWake now : ℚ) (frames : List Frame)
    (hframes : ∀ f ∈ frames, now + refractoryWait lastWake now ≤ f.time) :
    (∀ t name, (wait_for_wake_word lastWake now frames).2 = some (t, name) →
      lastWake + WAKE_WORD_REFRACTORY ≤ t) ∧
    ∃ pre reads, (wait_for_wake_word lastWake now frames).1 = pre ++ .resetModel :: reads ∧
      (∀ a ∈ pre, ∃ d, a = .sleep d) ∧ (∀ a ∈ reads, a = .readFrame) := by
  constructor
  · intro t name hdet
    have hmem : ∃ f ∈ frames, f.time = t := by
      apply scanFrames_det_mem frames t name
      simpa [wait_for_wake_word] using hdet
    obtain ⟨f, hf, hft⟩ := hmem
    have hge := hframes f hf
    rw [hft] at hge
    by_cases hr : now - lastWake < WAKE_WORD_REFRACTORY
    · have : now + refractoryWait lastWake now = lastWake + WAKE_WORD_REFRACTORY := by
        simp only [refractoryWait, if_pos hr]
        ring
      linarith
    · push_neg at hr
      have : now + refractoryWait lastWake now = now := by
        simp only [refractoryWait, if_neg (not_lt.mpr hr)]
        ring
      linarith
  · refine ⟨if now - lastWake < WAKE_WORD_REFRACTORY then
        [.sleep (refractoryWait lastWake now)] else [], (scanFrames frames).1, ?_, ?_, ?_⟩
    · simp [wait_for_wake_word]
    · intro a ha
      by_cases hr : now - lastWake < WAKE_WORD_REFRACTORY <;> simp [hr] at ha
      exact ⟨_, ha⟩
    · exact scanFrames_actions frames

unseal Rat.add Rat.mul Rat.sub Rat.inv in
/-- Witness for C5: previous detection at time 0, re-entry at time 1, one
above-threshold frame at time 3 (after the residual one-second sleep ends at
time 2); its acceptance time obeys the refractory bound. -/
theorem wake_refractory_witness :
    (0 : ℚ) + WAKE_WORD_REFRACTORY ≤ 3 :=
  (wake_refractory 0 1 [⟨3, [("hey_jarvis", 9/10)]⟩]
      (by
        intro f hf
        simp only [List.mem_singleton] at hf
        subst hf
        norm_num [refractoryWait, WAKE_WORD_REFRACTORY])).1
    3 "hey_jarvis" (by decide)

/-! ## TextToSpeech.speak (`src/voice/tts.py` lines 107-168)

The synthesis/playback side effects are abstracted into an environment
describing how the subprocess calls behave for this one invocation; `speak`
returns `Except PyErr Unit`, where `.error` means an exception escapes the
SpeechOutput boundary. -/

inductive PyErr where
  | nameError (n : String)
  | otherExn
  deriving DecidableEq, Repr

/-- How the on-the-fly piper→aplay pipeline behaves: both waits return in
time, a wait raises `subprocess.TimeoutExpired`, or some other exception is
raised on the path. -/
inductive PipelineOutcome where
  | completes
  | timesOut
  | raisesOther
  deriving DecidableEq, Repr

structure TtsEnv where
  cacheHit : Bool
  diskCacheHit : Bool
  playbackFails : Bool
  pipeline : PipelineOutcome

/-- `TextToSpeech._play_cached` (tts.py lines 162-168): the blanket
`except Exception` swallows every playback error, so the call always
returns normally — even when `aplay` fails (`_fails = true`). -/
def play_cached (_fails : Bool) : Except PyErr Unit := .ok ()

/-- `TextToSpeech.speak` (tts.py lines 107-160).  Memory/disk cache hits
play the cached file with all errors swallowed.  Otherwise the subprocess
pipeline runs: completion returns normally; `subprocess.TimeoutExpired`
lands in a handler (line 154-155) whose first statement `process.kill()`
references the undefined name `process` and so raises `NameError` out of
`speak` — an exception raised inside an `except` clause is not caught by
the sibling `except Exception` clause; any other exception is swallowed by
that blanket clause. -/
def speak (env : TtsEnv) (_text : String) : Except PyErr Unit :=
  if env.cacheHit then play_cached env.playbackFails
  else if env.diskCacheHit then play_cached env.playbackFails
  else
    match env.pipeline with
    | .completes => .ok ()
    | .timesOut => .error (.nameError "process")
    | .raisesOther => .ok ()

/-- C8: the claim says no synthesis/playback failure ever raises past the
SpeechOutput boundary, but on the failing input — an uncached text whose
pipeline wait times out — `speak` raises `NameError("process")`, because the
timeout handler's `process.kill()` names a variable that does not exist.
All other error paths (cached playback failures, non-timeout exceptions) are
indeed swallowed. -/
theorem speak_timeout_raises :
    speak ⟨false, false, false, .timesOut⟩ "hello" = .error (.nameError "process") ∧
    (∀ (c d p : Bool) (text : String), speak ⟨c, d, p, .completes⟩ text = .ok ()) ∧
    (∀ (c d p : Bool) (text : String), speak ⟨c, d, p, .raisesOther⟩ text = .ok ()) ∧
    (∀ (p : Bool) (out : PipelineOutcome) (text : String),
      speak ⟨true, false, p, out⟩ text = .ok ()) := by
  refine ⟨rfl, ?_, ?_, ?_⟩
  · intro c d p text
    cases c <;> cases d <;> rfl
  · intro c d p text
    cases c <;> cases d <;> rfl
  · intro p out text
    rfl
